import Mathlib

/-!
Verification development for the `jess-components` repository.

This file gives a shallow embedding, in Lean, of the logic of the component
factories in `src/unnamed/part_003` (`Components.ts`) and of the two debounce
helper variants (`src/src/src/Debounce.ts` and `src/unnamed/part_001`), and
proves properties of that logic.

Modelling conventions:
* JavaScript runtime values that the validation code inspects are modelled by
  the inductive type `JsValue` (null, undefined, strings, booleans, numbers).
* A validator (`ValidatorFunction<T>` in `Types.ts`,
  `(value) => string[] | null | undefined | Promise<...>`) is modelled as a
  function returning `Option (List String)`: `none` models `null`/`undefined`
  (falsy, skipped by the `if (valErrors)` guard), `some es` models an array
  (always truthy in JS, concatenated). The model covers validators whose
  result is available at resolution time (synchronous or already-settled).
* Reactive signals are modelled by explicit state passing: each `x.value = e`
  write is a function from state to state that also runs the subscribers of the signal synchronously, as documented for the reactive primitive
  ("write new value (notifies subscribers synchronously)").
* Timers (`setTimeout` / `clearTimeout`) are modelled by a discrete-event
  state: a pending-timer list plus a list of the tags of callbacks that have
  run, with an explicit `fireDue` step that runs every timer whose deadline
  has passed.
-/

namespace JessComponents

/-- A JavaScript value as far as the validation logic inspects it:
`null`, `undefined`, a string, a boolean, or a number. -/
inductive JsValue where
  | null : JsValue
  | undefined : JsValue
  | str : String → JsValue
  | bool : Bool → JsValue
  | num : Int → JsValue
deriving DecidableEq

/-- The required-field message pushed by every `validate` function in
`Components.ts`: `"This field is required."`. -/
def requiredMessage : String := "This field is required."

/-- The emptiness test of `input.validate` and `textarea.validate`
(`part_003` lines 122 and 244):
`newValue === null || newValue === undefined || newValue === ""`. -/
def isNullUndefOrEmptyStr : JsValue → Bool
  | .null => true
  | .undefined => true
  | .str s => s == ""
  | _ => false

/-- The emptiness test of `checkbox.validate` and `toggle.validate`
(`part_003` lines 609 and 680):
`newValue === null || newValue === undefined || newValue === false`. -/
def isNullUndefOrFalse : JsValue → Bool
  | .null => true
  | .undefined => true
  | .bool b => !b
  | _ => false

/-- A validator function as used by the `validate` bodies: the model of
`ValidatorFunction<T>` restricted to results that are available when awaited.
`none` models a `null`/`undefined` result (the `if (valErrors)` guard is
falsy and nothing is concatenated); `some es` models an array result (arrays
are truthy in JS, so `errors.value = errors.value.concat(valErrors)` runs). -/
abbrev Validator := JsValue → Option (List String)

/-- The microtask phase of a validation pass. Each `validate` body runs
`config.validators?.forEach(async valFunction => { const valErrors = await
valFunction(newValue); if (valErrors) { errors.value =
errors.value.concat(valErrors); } })`. The async callback suspends at
`await`, so the `concat` continuations are queued as microtasks in validator
order and run only after the synchronous rest of `validate` (including the
`required` check) has finished. `flushMicrotasks errors queue` runs those
queued continuations, in order, against the error list `errors` published at
the end of the synchronous phase. -/
def flushMicrotasks : List String → List (Option (List String)) → List String
  | errors, [] => errors
  | errors, none :: rest => flushMicrotasks errors rest
  | errors, some es :: rest => flushMicrotasks (errors ++ es) rest

/-- One completing validation pass of `input.validate` (`part_003` lines
108-125), for the case where the debounce gate at lines 110-115 does not
defer the pass (no `config.debounce`, or enough time has elapsed since the
last change). In source order: `errors.value = []` discards `priorErrors`;
the validators are invoked via `forEach` with an async callback, queuing
their `concat` continuations as microtasks; the synchronous `required` check
(which for `input` also requires `touched.value`) then appends
`requiredMessage` to the still-cleared list; finally the queued microtasks
run. -/
def inputValidate (validators : List Validator) (required touched : Bool)
    (x : JsValue) (priorErrors : List String) : List String :=
  let cleared : List String := []
  let queued := validators.map (fun v => v x)
  let afterRequired :=
    if required && isNullUndefOrEmptyStr x && touched then
      cleared ++ [requiredMessage]
    else cleared
  flushMicrotasks afterRequired queued

/-- One validation pass of `textarea.validate` (`part_003` lines 236-247).
Identical to `inputValidate` except that the `required` check has no
`touched` conjunct and there is no debounce gate. -/
def textareaValidate (validators : List Validator) (required : Bool)
    (x : JsValue) (priorErrors : List String) : List String :=
  let cleared : List String := []
  let queued := validators.map (fun v => v x)
  let afterRequired :=
    if required && isNullUndefOrEmptyStr x then
      cleared ++ [requiredMessage]
    else cleared
  flushMicrotasks afterRequired queued

/-- One validation pass of `checkbox.validate` (`part_003` lines 601-612).
Like `textareaValidate`, but the emptiness test also treats `false` as
empty. -/
def checkboxValidate (validators : List Validator) (required : Bool)
    (x : JsValue) (priorErrors : List String) : List String :=
  let cleared : List String := []
  let queued := validators.map (fun v => v x)
  let afterRequired :=
    if required && isNullUndefOrFalse x then
      cleared ++ [requiredMessage]
    else cleared
  flushMicrotasks afterRequired queued

/-- One validation pass of `toggle.validate` (`part_003` lines 672-683),
textually identical to `checkbox.validate`. -/
def toggleValidate (validators : List Validator) (required : Bool)
    (x : JsValue) (priorErrors : List String) : List String :=
  let cleared : List String := []
  let queued := validators.map (fun v => v x)
  let afterRequired :=
    if required && isNullUndefOrFalse x then
      cleared ++ [requiredMessage]
    else cleared
  flushMicrotasks afterRequired queued

/-- The concatenation, in validator order, of the non-null error arrays the
validators produce for `x` (a `null`/`undefined` result contributes
nothing). This is the value all the validation passes publish on top of the
required-message part. -/
def validatorErrors (validators : List Validator) (x : JsValue) : List String :=
  (validators.map (fun v => (v x).getD [])).flatten

/-! ## Debounce helpers

Two variants exist in the repository. Variant A (`src/src/src/Debounce.ts`)
defaults `delay` to `0` and runs `func()` synchronously when `delay` is
falsy (`if (!delay) { func(); return; }`). Variant B (`src/unnamed/part_001`)
defaults `delay` to `500` and always schedules via `setTimeout`. In both,
`debounceMap[identifier]` holds at most one pending timer per identifier:
a new call clears it (`clearTimeout`) and stores a fresh timer, and the
timer callback runs `func()` and deletes its entry.

The map is modelled as a list of pending timers with at most one entry per
identifier (a call filters out the old entry for its identifier before
consing the new one). A callback is identified by a numeric `tag`; the
`fired` list records, in execution order, the tags of callbacks that have
run. -/

/-- A pending `setTimeout` entry of the debounce map: the map key, the
absolute time at which the timer is due, and the tag of the scheduled
callback. -/
structure PendingTimer where
  ident : String
  fireAt : Nat
  tag : Nat
deriving DecidableEq

/-- The state of the process-wide debounce machinery: the pending-timer map
(as a list, at most one entry per identifier) and the tags of callbacks that
have executed, in order. -/
structure DebounceState where
  pending : List PendingTimer
  fired : List Nat
deriving DecidableEq

/-- The default value of `delay` in variant A (`src/src/src/Debounce.ts`:
`delay: number = 0`). -/
def debounceDelayDefaultA : Nat := 0

/-- The default value of `delay` in variant B (`src/unnamed/part_001`:
`delay = 500`). -/
def debounceDelayDefaultB : Nat := 500

/-- The effect of `if (debounceMap[identifier]) clearTimeout(...)` followed
by overwriting `debounceMap[identifier]`: every pending entry for `ident`
is removed. -/
def clearPending (s : DebounceState) (ident : String) : List PendingTimer :=
  s.pending.filter (fun e => e.ident != ident)

/-- A call of variant A, `debounce(identifier, func, delay)` from
`src/src/src/Debounce.ts`, made at absolute time `now` with callback tag
`tag`. If `delay` is falsy (`0`), `func()` runs immediately and the map is
untouched; otherwise the pending timer of the identifier (if any) is cleared and
a new timer due at `now + delay` is stored. -/
def debounceA (s : DebounceState) (now : Nat) (ident : String) (tag : Nat)
    (delay : Nat) : DebounceState :=
  if delay = 0 then
    { s with fired := s.fired ++ [tag] }
  else
    { pending := ⟨ident, now + delay, tag⟩ :: clearPending s ident
      fired := s.fired }

/-- A call of variant B, `debounce(identifier, func, delay)` from
`src/unnamed/part_001`, made at absolute time `now` with callback tag `tag`.
There is no zero-delay shortcut: every call clears the pending
timer and schedules a new one due at `now + delay`. -/
def debounceB (s : DebounceState) (now : Nat) (ident : String) (tag : Nat)
    (delay : Nat) : DebounceState :=
  { pending := ⟨ident, now + delay, tag⟩ :: clearPending s ident
    fired := s.fired }

/-- The event-loop step that runs every pending timer whose deadline has
passed by time `now`: each due callback runs (its tag is appended to
`fired`) and its entry is deleted from the map, as in the `setTimeout`
callback `() => { func(); delete debounceMap[identifier]; }`. -/
def fireDue (s : DebounceState) (now : Nat) : DebounceState :=
  { pending := s.pending.filter (fun e => decide (now < e.fireAt))
    fired := s.fired ++ (s.pending.filter (fun e => decide (e.fireAt ≤ now))).map (fun e => e.tag) }

/-! ## Searchable select

`searchableSelect` (`part_003` lines 457-551) keeps, in its closure, the
signals `options`, `value`, `search`, `optionsVisible`, `filtered`,
`selectedIndex` and `selectedId` and the subscriptions

* `value.subscribe(newVal => search.value = options.value.find(o => o.id
  === newVal)?.name ?? "")` (line 462),
* `options.subscribe(filter)` and `search.subscribe(filter)`, where
  `filter` runs `selectedIndex.value = options.value.findIndex(o =>
  o.name.toLowerCase().includes(search.value.toLowerCase()))` (the line
  that would rewrite `filtered` is commented out, so `filtered` is never
  written after construction),
* `selectedIndex.subscribe(updateSelectedId)` and
  `filtered.subscribe(updateSelectedId)`, where `updateSelectedId` runs
  `selectedId.value = filtered.value[selectedIndex.value]?.id`.

Signal writes notify subscribers synchronously, so each write below is a
state-to-state function that also performs the subscribed reactions.
Option ids are drawn from a type `T` with decidable equality; the `value`
signal holds `Option T`, with `none` modelling JS `null` (no selection).
`selectedId` holds `Option T`, with `none` modelling both `null` and
`undefined` (the distinction is never observed by this logic). -/

/-- An entry of the option list of a select (`SelectOption<T>` in `Types.ts`):
an id and a display name. -/
structure SelectOption (T : Type) where
  id : T
  name : String
deriving DecidableEq

/-- The reactive state of one `searchableSelect` instance: the current
values of its seven signals. -/
structure SearchSelectState (T : Type) where
  options : List (SelectOption T)
  value : Option T
  search : String
  optionsVisible : Bool
  filtered : List (SelectOption T)
  selectedIndex : Int
  selectedId : Option T
deriving DecidableEq

/-- JS array indexing `l[i]`, which yields `undefined` (here `none`) for a
negative index or an index at or beyond the length. -/
def jsIndex {α : Type} (l : List α) (i : Int) : Option α :=
  if i < 0 then none else l.get? i.toNat

/-- Whether the character list `needle` occurs at the start of `hay`. -/
def charsPrefix : List Char → List Char → Bool
  | [], _ => true
  | _ :: _, [] => false
  | a :: as, b :: bs => a == b && charsPrefix as bs

/-- Whether the character list `needle` occurs contiguously anywhere in
`hay`. -/
def charsContain : List Char → List Char → Bool
  | needle, [] => charsPrefix needle []
  | needle, b :: bs => charsPrefix needle (b :: bs) || charsContain needle bs

/-- JS `toLowerCase`, modelled over the character list of the string by
lowering each character (which coincides with JS on the ASCII option names
and search texts this logic compares). -/
def lowerChars (s : String) : List Char :=
  s.data.map Char.toLower

/-- JS `Array.prototype.findIndex`: the index of the first element
satisfying `p`, or `-1` when none does. -/
def jsFindIndex {α : Type} (l : List α) (p : α → Bool) : Int :=
  match l.findIdx? p with
  | some i => (i : Int)
  | none => -1

/-- The predicate of the `filter` closure (`part_003` line 470),
`o.name.toLowerCase().includes(search.value.toLowerCase())`: whether the
lowercased name of an option contains the lowercased search text. -/
def optionMatches (searchText : String) (o : SelectOption T) : Bool :=
  charsContain (lowerChars searchText) (lowerChars o.name)

/-- JS `options.find(o => o.id === v)` as used by the `value` subscription
(`part_003` line 463): the first option whose id strictly equals `v`
(`none` matches nothing, as `o.id === null` is false for a `T`-valued id). -/
def findByValue {T : Type} [DecidableEq T] (options : List (SelectOption T))
    (v : Option T) : Option (SelectOption T) :=
  options.find? (fun o => some o.id == v)

/-- The `updateSelectedId` closure (`part_003` lines 476-478):
`selectedId.value = filtered.value[selectedIndex.value]?.id`. (`selectedId`
has no subscriber that writes model state.) -/
def updateSelectedId {T : Type} (s : SearchSelectState T) : SearchSelectState T :=
  { s with selectedId := (jsIndex s.filtered s.selectedIndex).map (fun o => o.id) }

/-- A write `selectedIndex.value = i`, which synchronously runs the
subscriber `updateSelectedId`. -/
def writeSelectedIndex {T : Type} (s : SearchSelectState T) (i : Int) :
    SearchSelectState T :=
  updateSelectedId { s with selectedIndex := i }

/-- The `filter` closure (`part_003` lines 468-471): the line rewriting
`filtered` is commented out in the source, so the step only writes
`selectedIndex.value = options.value.findIndex(o =>
o.name.toLowerCase().includes(search.value.toLowerCase()))`. -/
def filterStep {T : Type} (s : SearchSelectState T) : SearchSelectState T :=
  writeSelectedIndex s (jsFindIndex s.options (fun o => optionMatches s.search o))

/-- A write `search.value = t`, which synchronously runs the subscriber
`filter`. -/
def writeSearch {T : Type} (s : SearchSelectState T) (t : String) :
    SearchSelectState T :=
  filterStep { s with search := t }

/-- A write `value.value = v`, which synchronously runs the subscriber of
line 462: `search.value = options.value.find(o => o.id === newVal)?.name ??
""` (itself a `search` write with its own cascade). -/
def writeValue {T : Type} [DecidableEq T] (s : SearchSelectState T)
    (v : Option T) : SearchSelectState T :=
  let s1 := { s with value := v }
  writeSearch s1 (((findByValue s1.options v).map (fun o => o.name)).getD "")

/-- A write `optionsVisible.value = b`. Its subscribers (the `when`
rendering and the dropdown icon `compute`) do not write any of the modelled
signals. -/
def writeOptionsVisible {T : Type} (s : SearchSelectState T) (b : Bool) :
    SearchSelectState T :=
  { s with optionsVisible := b }

/-- The `Enter` branch of the `onkeydown` handler of the input (`part_003` lines
503-510): `const selectedOption = filtered.value[selectedIndex.value];
value.value = selectedOption?.id ?? value.value; search.value =
selectedOption?.name ?? search.value; optionsVisible.value = false;`. The
right-hand side of the `search` write reads `search.value` after the
subscriber cascade of the `value` write has run. (`e.preventDefault()` and
`e.stopPropagation()` act on the DOM event only.) -/
def enterKey {T : Type} [DecidableEq T] (s : SearchSelectState T) :
    SearchSelectState T :=
  let selectedOption := jsIndex s.filtered s.selectedIndex
  let s1 := writeValue s (match selectedOption with
    | some o => some o.id
    | none => s.value)
  let s2 := writeSearch s1 (match selectedOption with
    | some o => o.name
    | none => s1.search)
  writeOptionsVisible s2 false

/-- The `ArrowDown` branch of the `onkeydown` handler (`part_003` line 514):
`selectedIndex.value = (selectedIndex.value + 1) % filtered.value.length`.
JS `%` is the truncation remainder, `Int.tmod`. (For an empty `filtered`
list the JS expression is `NaN`, outside this model; the claims concern
non-empty lists.) -/
def arrowDownKey {T : Type} (s : SearchSelectState T) : SearchSelectState T :=
  writeSelectedIndex s (Int.tmod (s.selectedIndex + 1) (s.filtered.length : Int))

/-- The `ArrowUp` branch of the `onkeydown` handler (`part_003` line 519):
`selectedIndex.value = (selectedIndex.value - 1 + filtered.value.length) %
filtered.value.length`. -/
def arrowUpKey {T : Type} (s : SearchSelectState T) : SearchSelectState T :=
  writeSelectedIndex s
    (Int.tmod (s.selectedIndex - 1 + (s.filtered.length : Int)) (s.filtered.length : Int))

/-- The `onclick` handler of `searchSelectOption` (`part_003` lines
569-573): `config.value.value = config.option.id; config.search.value =
config.option.name; config.optionsVisible.value = false;`. -/
def clickOption {T : Type} [DecidableEq T] (s : SearchSelectState T)
    (opt : SelectOption T) : SearchSelectState T :=
  writeOptionsVisible (writeSearch (writeValue s (some opt.id)) opt.name) false

/-! ## Concrete instances used by witnesses and counterexamples -/

/-- The option list `[A, B, C]` of the keyboard-navigation example, with
numeric ids. -/
def abcOptions : List (SelectOption Nat) := [⟨1, "A"⟩, ⟨2, "B"⟩, ⟨3, "C"⟩]

/-- A `searchableSelect` state over `abcOptions` with highlight index 0. -/
def abcState : SearchSelectState Nat :=
  ⟨abcOptions, none, "", false, abcOptions, 0, some 1⟩

/-- The option list of the selection example:
`[{id:1,name:"A"}, {id:2,name:"B"}]`. -/
def abOptions : List (SelectOption Nat) := [⟨1, "A"⟩, ⟨2, "B"⟩]

/-- A `searchableSelect` state over `abOptions` with the dropdown open and
option `B` (index 1) highlighted. -/
def abHighlightB : SearchSelectState Nat :=
  ⟨abOptions, none, "", true, abOptions, 1, some 2⟩

/-- A `searchableSelect` state over one option `A` whose search text `"zz"`
matches nothing, so `selectedIndex` is `-1` (no option at that index). -/
def noMatchState : SearchSelectState Nat :=
  ⟨[⟨1, "A"⟩], none, "zz", true, [⟨1, "A"⟩], -1, none⟩

/-- A `searchableSelect` state over one option `A`, used to exercise an
external `value` write. -/
def singleAState : SearchSelectState Nat :=
  ⟨[⟨1, "A"⟩], none, "", false, [⟨1, "A"⟩], 0, some 1⟩

/-- A `searchableSelect` state over one option `Apple` whose pending search
text `"zz"` matches nothing, before the filter step runs. -/
def appleState : SearchSelectState Nat :=
  ⟨[⟨1, "Apple"⟩], none, "zz", false, [⟨1, "Apple"⟩], 0, some 1⟩

/-! ## Helper lemmas -/

theorem flushMicrotasks_eq (q : List (Option (List String))) (e : List String) :
    flushMicrotasks e q = e ++ (q.map (fun r => r.getD [])).flatten := by
  induction q generalizing e with
  | nil => simp [flushMicrotasks]
  | cons hd tl ih =>
    cases hd with
    | none => simp [flushMicrotasks, ih]
    | some es => simp [flushMicrotasks, ih]

theorem debounceA_eq_debounceB_of_pos (s : DebounceState) (now : Nat)
    (ident : String) (tag : Nat) (d : Nat) (hd : d ≠ 0) :
    debounceA s now ident tag d = debounceB s now ident tag d := by
  simp [debounceA, debounceB, hd]

theorem findIdx_slide_eq_none {α : Type} (p : α → Bool) (l : List α)
    (h : ∀ a ∈ l, p a = false) : ∀ st : Nat, List.findIdx? p l st = none := by
  induction l with
  | nil => intro st; simp [List.findIdx?_nil]
  | cons a l ih =>
    intro st
    rw [List.findIdx?_cons, if_neg (by simp [h a (List.mem_cons_self a l)])]
    exact ih (fun b hb => h b (List.mem_cons_of_mem a hb)) (st + 1)

theorem findIdx_slide_eq_first {α : Type} (p : α → Bool) (l : List α) :
    ∀ (i : Nat) (o : α), l.get? i = some o → p o = true →
      (∀ j, j < i → ∀ b, l.get? j = some b → p b = false) →
      ∀ st : Nat, List.findIdx? p l st = some (st + i) := by
  induction l with
  | nil => intro i o hget _ _ _; simp at hget
  | cons a l ih =>
    intro i o hget hp hfirst st
    cases i with
    | zero =>
      rw [List.get?_cons_zero] at hget
      injection hget with hao
      subst hao
      rw [List.findIdx?_cons, if_pos hp]
      simp
    | succ j =>
      have ha : p a = false := hfirst 0 (Nat.succ_pos j) a List.get?_cons_zero
      rw [List.findIdx?_cons, if_neg (by simp [ha])]
      rw [List.get?_cons_succ] at hget
      have hrec := ih j o hget hp
        (fun m hm b hb => hfirst (m + 1) (Nat.succ_lt_succ hm) b
          (by rw [List.get?_cons_succ]; exact hb)) (st + 1)
      rw [hrec]
      congr 1
      omega

theorem jsFindIndex_eq_neg_one {α : Type} (l : List α) (p : α → Bool)
    (h : ∀ a ∈ l, p a = false) : jsFindIndex l p = -1 := by
  unfold jsFindIndex
  rw [findIdx_slide_eq_none p l h 0]

theorem jsFindIndex_eq_first {α : Type} (l : List α) (p : α → Bool) (i : Nat)
    (o : α) (hget : l.get? i = some o) (hp : p o = true)
    (hfirst : ∀ j, j < i → ∀ b, l.get? j = some b → p b = false) :
    jsFindIndex l p = (i : Int) := by
  unfold jsFindIndex
  rw [findIdx_slide_eq_first p l i o hget hp hfirst 0]
  simp

theorem filterStep_search {T : Type} (s : SearchSelectState T) :
    (filterStep s).search = s.search := rfl

theorem filterStep_value {T : Type} (s : SearchSelectState T) :
    (filterStep s).value = s.value := rfl

theorem filterStep_optionsVisible {T : Type} (s : SearchSelectState T) :
    (filterStep s).optionsVisible = s.optionsVisible := rfl

theorem writeSearch_search {T : Type} (s : SearchSelectState T) (t : String) :
    (writeSearch s t).search = t := rfl

theorem writeSearch_value {T : Type} (s : SearchSelectState T) (t : String) :
    (writeSearch s t).value = s.value := rfl

theorem writeSearch_optionsVisible {T : Type} (s : SearchSelectState T)
    (t : String) : (writeSearch s t).optionsVisible = s.optionsVisible := rfl

theorem writeValue_value {T : Type} [DecidableEq T] (s : SearchSelectState T)
    (v : Option T) : (writeValue s v).value = v := rfl

theorem writeValue_search {T : Type} [DecidableEq T] (s : SearchSelectState T)
    (v : Option T) : (writeValue s v).search =
      ((findByValue s.options v).map (fun o => o.name)).getD "" := rfl

theorem writeValue_optionsVisible {T : Type} [DecidableEq T]
    (s : SearchSelectState T) (v : Option T) :
    (writeValue s v).optionsVisible = s.optionsVisible := rfl

/-! ## Claim theorems -/

/-- C1 counterexample: with one validator returning `["e1"]`, a required
empty touched value, a completing validation pass publishes
`["This field is required.", "e1"]` — the required-field message comes
first, because the `required` check runs synchronously while the validator
`concat` continuations are queued behind the `await` — and not the
claimed concatenation of validator errors followed by the required-field
message. -/
theorem inputValidate_required_last_counterexample :
    inputValidate [fun _ => some ["e1"]] true true (JsValue.str "") [] =
      [requiredMessage, "e1"] ∧
    inputValidate [fun _ => some ["e1"]] true true (JsValue.str "") [] ≠
      validatorErrors [fun _ => some ["e1"]] (JsValue.str "") ++
        [requiredMessage] := by
  constructor
  · rfl
  · decide

/-- C1 (amended): for every list of validators (with results available when
awaited) and every value `x`, a completing validation pass publishes the
required-field message (when the required policy applies) followed by the
concatenation, in validator order, of the non-null error arrays of the
validators for `x`; the pass replaces the prior error list (the result does
not depend on `priorErrors`). This holds for the `input` pass (required
policy gated on `touched`) and the `textarea` pass alike. -/
theorem validationPass_publishes_required_then_validators
    (validators : List Validator) (required touched : Bool) (x : JsValue)
    (prior prior2 : List String) :
    inputValidate validators required touched x prior =
      (if required && isNullUndefOrEmptyStr x && touched then [requiredMessage]
        else []) ++ validatorErrors validators x ∧
    textareaValidate validators required x prior =
      (if required && isNullUndefOrEmptyStr x then [requiredMessage]
        else []) ++ validatorErrors validators x ∧
    inputValidate validators required touched x prior =
      inputValidate validators required touched x prior2 ∧
    textareaValidate validators required x prior =
      textareaValidate validators required x prior2 := by
  refine ⟨?_, ?_, rfl, rfl⟩ <;>
    simp [inputValidate, textareaValidate, flushMicrotasks_eq, validatorErrors,
      Function.comp_def]

/-- C2: calling `debounce(k, f, d)` with positive `d`, then calling again
with the same identifier `k` before `d` has elapsed (so the first timer was
not yet due when the event loop ran), leaves the callback of the first call
neither fired nor pending, leaves exactly the timer of the second call
pending at deadline `t1 + d`, and a later event-loop step fires the second
callback exactly once, precisely when the full delay `d` measured from the
second call has elapsed — and never fires the first. Both source variants
behave this way (variant B agrees with variant A on every positive delay). -/
theorem debounce_second_call_wins (k : String) (tag1 tag2 d t0 t1 : Nat)
    (s1 s2 : DebounceState)
    (hd : 0 < d) (hlt : t1 < t0 + d) (hne : tag1 ≠ tag2)
    (hs1 : s1 = debounceA ⟨[], []⟩ t0 k tag1 d)
    (hs2 : s2 = debounceA (fireDue s1 t1) t1 k tag2 d) :
    fireDue s1 t1 = s1 ∧
    tag1 ∉ s2.fired ∧
    (∀ e ∈ s2.pending, e.tag ≠ tag1) ∧
    s2.pending = [⟨k, t1 + d, tag2⟩] ∧
    (∀ T, (fireDue s2 T).fired.count tag2 = (if t1 + d ≤ T then 1 else 0) ∧
      (fireDue s2 T).fired.count tag1 = 0) ∧
    debounceB ⟨[], []⟩ t0 k tag1 d = s1 ∧
    debounceB (fireDue s1 t1) t1 k tag2 d = s2 := by
  have hdz : d ≠ 0 := by omega
  have hnotdue : ¬ (t0 + d ≤ t1) := by omega
  have hs1v : s1 = DebounceState.mk [⟨k, t0 + d, tag1⟩] [] := by
    rw [hs1]; simp [debounceA, hdz, clearPending]
  have hfire : fireDue s1 t1 = s1 := by
    rw [hs1v]; simp [fireDue, List.filter, hlt, hnotdue]
  have hs2v : s2 = DebounceState.mk [⟨k, t1 + d, tag2⟩] [] := by
    rw [hs2, hfire, hs1v]; simp [debounceA, hdz, clearPending, List.filter]
  refine ⟨hfire, ?_, ?_, ?_, ?_, ?_, ?_⟩
  · rw [hs2v]; simp
  · rw [hs2v]; intro e he; simp at he; rw [he]; exact Ne.symm hne
  · rw [hs2v]
  · intro T
    rw [hs2v]
    by_cases hT : t1 + d ≤ T
    · simp [fireDue, List.filter, hT, Nat.not_lt.mpr hT, List.count_cons,
        Ne.symm hne, hne]
    · simp [fireDue, List.filter, hT, Nat.lt_of_not_le hT]
  · rw [hs1v]; simp [debounceB, clearPending]
  · rw [hs2v, hfire, hs1v]
    simp [debounceB, clearPending, List.filter]

/-- C2 witness: a concrete run — `debounce("k", f1, 100)` at time 0,
`debounce("k", f2, 100)` at time 50, event loop at time 150 — fires the
callback of the second call exactly once and the first never. -/
theorem debounce_second_call_wins_witness :
    (fireDue (debounceA (fireDue (debounceA ⟨[], []⟩ 0 "k" 1 100) 50) 50 "k" 2
      100) 150).fired.count 2 = 1 ∧
    (fireDue (debounceA (fireDue (debounceA ⟨[], []⟩ 0 "k" 1 100) 50) 50 "k" 2
      100) 150).fired.count 1 = 0 := by
  have h := debounce_second_call_wins "k" 1 2 100 0 50 _ _ (by decide)
    (by decide) (by decide) rfl rfl
  have h2 := h.2.2.2.2.1 150
  exact ⟨by simpa using h2.1, h2.2⟩

/-- C3: the two debounce variants differ exactly on zero/default delay.
Variant A (`src/src/src/Debounce.ts`) has default delay 0 and, for delay 0
(or absent), runs the callback synchronously during the call, leaving the
timer map untouched; variant B (`src/unnamed/part_001`) has default delay
500 and never runs a callback during the call — every call, whatever its
delay, only schedules a pending timer. For every positive explicit delay
the two variants produce identical states. -/
theorem debounce_variants_agree_on_positive (s : DebounceState) (now : Nat)
    (k : String) (tag d : Nat) (hd : 0 < d) :
    debounceA s now k tag debounceDelayDefaultA =
      { s with fired := s.fired ++ [tag] } ∧
    debounceA s now k tag 0 = { s with fired := s.fired ++ [tag] } ∧
    (∀ d2, (debounceB s now k tag d2).fired = s.fired ∧
      (debounceB s now k tag d2).pending = ⟨k, now + d2, tag⟩ :: clearPending s k) ∧
    debounceDelayDefaultB = 500 ∧
    debounceA s now k tag d = debounceB s now k tag d := by
  refine ⟨rfl, rfl, fun d2 => ⟨rfl, rfl⟩, rfl,
    debounceA_eq_debounceB_of_pos s now k tag d (by omega)⟩

/-- C3 witness: at the concrete positive delay 3 the two variants agree,
and variant A at delay 0 fires tag 7 synchronously. -/
theorem debounce_variants_agree_on_positive_witness :
    debounceA ⟨[], []⟩ 0 "k" 7 3 = debounceB ⟨[], []⟩ 0 "k" 7 3 ∧
    debounceA ⟨[], []⟩ 0 "k" 7 0 = ⟨[], [7]⟩ := by
  have h := debounce_variants_agree_on_positive ⟨[], []⟩ 0 "k" 7 3 (by decide)
  exact ⟨h.2.2.2.2, h.2.1⟩

/-- C4: with `required = true` and an empty-like value, the `input` pass
adds the required-field message only when the field has been touched — the
untouched pass publishes exactly the validator errors — while the
`textarea`, `checkbox` and `toggle` passes add it on every such pass (their
`validate` has no touched gate, so this includes the construction-time
call). Empty-like means null/undefined/empty string for input and textarea,
and null/undefined/false for checkbox and toggle. -/
theorem required_gate_touched_only_for_input (validators : List Validator)
    (x : JsValue) (prior : List String) :
    inputValidate validators true false x prior = validatorErrors validators x ∧
    (isNullUndefOrEmptyStr x = true →
      inputValidate validators true true x prior =
        requiredMessage :: validatorErrors validators x) ∧
    (isNullUndefOrEmptyStr x = true →
      textareaValidate validators true x prior =
        requiredMessage :: validatorErrors validators x) ∧
    (isNullUndefOrFalse x = true →
      checkboxValidate validators true x prior =
        requiredMessage :: validatorErrors validators x) ∧
    (isNullUndefOrFalse x = true →
      toggleValidate validators true x prior =
        requiredMessage :: validatorErrors validators x) := by
  constructor
  · simp [inputValidate, flushMicrotasks_eq, validatorErrors, Function.comp_def]
  refine ⟨fun h => ?_, fun h => ?_, fun h => ?_, fun h => ?_⟩ <;>
    simp [inputValidate, textareaValidate, checkboxValidate, toggleValidate,
      flushMicrotasks_eq, validatorErrors, Function.comp_def, h]

/-- C4 witness: at concrete empty-like inputs, the touched input pass and
the checkbox pass both add the required-field message. -/
theorem required_gate_touched_only_for_input_witness :
    inputValidate [] true true (JsValue.str "") [] =
      requiredMessage :: validatorErrors [] (JsValue.str "") ∧
    checkboxValidate [] true JsValue.null [] =
      requiredMessage :: validatorErrors [] JsValue.null :=
  ⟨(required_gate_touched_only_for_input [] (JsValue.str "") []).2.1 rfl,
    (required_gate_touched_only_for_input [] JsValue.null []).2.2.2.1 rfl⟩

/-- C5: a checkbox pass with `required = true` and no validators publishes
exactly the one required-field message when the value is `false`, and the
empty list when the value is `true` — whatever the prior error lists were. -/
theorem checkbox_required_exactly_one_message (prior prior2 : List String) :
    checkboxValidate [] true (JsValue.bool false) prior = [requiredMessage] ∧
    checkboxValidate [] true (JsValue.bool true) prior2 = [] := by
  exact ⟨rfl, rfl⟩

/-- C6: with a non-empty filtered list of length `n` and the highlight on a
valid index `i`, `ArrowDown` sets the highlight index to `(i + 1) mod n` and
`ArrowUp` sets it to `(i - 1 + n) mod n` (mathematical modulus); in
particular, from `[A, B, C]` with initial index 0, two `ArrowDown` presses
give index 2 and a third wraps to 0. -/
theorem arrow_keys_move_highlight_modularly {T : Type} (s : SearchSelectState T)
    (hpos : 0 < s.filtered.length) (h0 : 0 ≤ s.selectedIndex) :
    (arrowDownKey s).selectedIndex =
      (s.selectedIndex + 1) % (s.filtered.length : Int) ∧
    (arrowUpKey s).selectedIndex =
      (s.selectedIndex - 1 + (s.filtered.length : Int)) % (s.filtered.length : Int) ∧
    (arrowDownKey (arrowDownKey abcState)).selectedIndex = 2 ∧
    (arrowDownKey (arrowDownKey (arrowDownKey abcState))).selectedIndex = 0 := by
  refine ⟨?_, ?_, by decide, by decide⟩
  · show Int.tmod (s.selectedIndex + 1) (s.filtered.length : Int) = _
    exact Int.tmod_eq_emod (by omega) (by omega)
  · show Int.tmod (s.selectedIndex - 1 + (s.filtered.length : Int))
      (s.filtered.length : Int) = _
    exact Int.tmod_eq_emod (by omega) (by omega)

/-- C6 witness: the general modular law applied to the concrete state over
`[A, B, C]` with highlight index 0. -/
theorem arrow_keys_move_highlight_modularly_witness :
    (arrowDownKey abcState).selectedIndex =
      (abcState.selectedIndex + 1) % (abcState.filtered.length : Int) :=
  (arrow_keys_move_highlight_modularly abcState (by decide) (by decide)).1

/-- C7: committing an option sets the `value` signal to its id, sets the
`search` signal to its name, and sets `optionsVisible` to false. Clicking
commits the clicked option in every state, whatever the highlight; `Enter`
commits the option at the highlighted index when one exists; in particular
selecting `B` from `[{id:1,name:"A"}, {id:2,name:"B"}]` yields value 2,
search `"B"`, dropdown closed. -/
theorem commit_option_sets_value_search_closes {T : Type} [DecidableEq T]
    (s : SearchSelectState T) (opt : SelectOption T) :
    (clickOption s opt).value = some opt.id ∧
    (clickOption s opt).search = opt.name ∧
    (clickOption s opt).optionsVisible = false ∧
    (jsIndex s.filtered s.selectedIndex = some opt →
      (enterKey s).value = some opt.id ∧
      (enterKey s).search = opt.name ∧
      (enterKey s).optionsVisible = false) ∧
    (enterKey abHighlightB).value = some 2 ∧
    (enterKey abHighlightB).search = "B" ∧
    (enterKey abHighlightB).optionsVisible = false := by
  refine ⟨rfl, ?_, rfl, fun hsel => ⟨?_, ?_, ?_⟩, by decide, by decide, by decide⟩
  · show (writeSearch (writeValue s (some opt.id)) opt.name).search = opt.name
    exact writeSearch_search _ _
  · simp [enterKey, hsel, writeOptionsVisible, writeSearch_value, writeValue_value,
      filterStep_value]
  · simp [enterKey, hsel, writeOptionsVisible, writeSearch_search]
  · simp [enterKey, hsel, writeOptionsVisible]

/-- C7 witness: over `[{id:1,name:"A"}, {id:2,name:"B"}]` with option `B`
highlighted, clicking the non-highlighted option `A` commits `A`, and
`Enter` commits the highlighted option `B`. -/
theorem commit_option_sets_value_search_closes_witness :
    (clickOption abHighlightB ⟨1, "A"⟩).value = some 1 ∧
    (clickOption abHighlightB ⟨1, "A"⟩).search = "A" ∧
    (enterKey abHighlightB).value = some 2 :=
  ⟨(commit_option_sets_value_search_closes abHighlightB ⟨1, "A"⟩).1,
    (commit_option_sets_value_search_closes abHighlightB ⟨1, "A"⟩).2.1,
    ((commit_option_sets_value_search_closes abHighlightB ⟨2, "B"⟩).2.2.2.1
      (by decide)).1⟩

/-- C8: every external write of `v` to the `value` signal leaves `value` at
`v` and sets `search` to the name of the first option in the current
options list whose id equals `v`, or to the empty string when no option id
equals `v` (the no-match condition being exactly that no option of the list
has id equal to `v`). -/
theorem value_write_resyncs_search {T : Type} [DecidableEq T]
    (s : SearchSelectState T) (v : Option T) (o : SelectOption T) :
    (writeValue s v).value = v ∧
    (findByValue s.options v = some o → (writeValue s v).search = o.name) ∧
    (findByValue s.options v = none → (writeValue s v).search = "") ∧
    (findByValue s.options v = none ↔ ∀ o2 ∈ s.options, some o2.id ≠ v) := by
  refine ⟨rfl, fun h => ?_, fun h => ?_, ?_⟩
  · rw [writeValue_search, h]; rfl
  · rw [writeValue_search, h]; rfl
  · unfold findByValue
    rw [List.find?_eq_none]
    constructor
    · intro h o2 ho2
      have := h o2 ho2
      simpa using this
    · intro h o2 ho2
      simpa using h o2 ho2

/-- C8 witness: writing `some 1` externally over options `[{id:1,name:"A"}]`
sets `search` to `"A"`. -/
theorem value_write_resyncs_search_witness :
    (writeValue singleAState (some 1)).search = "A" :=
  (value_write_resyncs_search singleAState (some 1) ⟨1, "A"⟩).2.1 (by decide)

/-- C9 counterexample: in a state with options `[{id:1,name:"A"}]`, value
null, search text `"zz"` and highlight index `-1` (no option at that
index), pressing `Enter` does not keep the previous `search` value: the
rewrite of `value` notifies its subscriber, which resets `search` to the
name of the option matching the current value — here to `""` — before the
`search.value = selectedOption?.name ?? search.value` line rewrites that
already-changed value. -/
theorem enter_without_option_changes_search :
    jsIndex noMatchState.filtered noMatchState.selectedIndex = none ∧
    noMatchState.search = "zz" ∧
    (enterKey noMatchState).search = "" ∧
    (enterKey noMatchState).search ≠ noMatchState.search := by
  refine ⟨rfl, rfl, by decide, by decide⟩

/-- C9 (amended): if `Enter` is pressed when no option exists at the
highlighted index, the `value` signal keeps its previous value (it is
rewritten with the same value) and `optionsVisible` is set to false — the
dropdown closes without committing — but the `search` signal is set, by the
subscriber of the `value` rewrite, to the name of the option matching the
current value, or to the empty string when no option matches; it keeps its
previous text only when that text already equals this resynchronized
value. -/
theorem enter_without_option_closes_uncommitted {T : Type} [DecidableEq T]
    (s : SearchSelectState T)
    (hnone : jsIndex s.filtered s.selectedIndex = none) :
    (enterKey s).value = s.value ∧
    (enterKey s).optionsVisible = false ∧
    (enterKey s).search =
      ((findByValue s.options s.value).map (fun o => o.name)).getD "" := by
  refine ⟨?_, rfl, ?_⟩
  · simp [enterKey, hnone, writeOptionsVisible, writeSearch_value, writeValue_value]
  · simp [enterKey, hnone, writeOptionsVisible, writeSearch_search,
      writeSearch_value, writeValue_search]

/-- C9 witness: the amended law applied to the concrete no-match state. -/
theorem enter_without_option_closes_uncommitted_witness :
    (enterKey noMatchState).value = noMatchState.value ∧
    (enterKey noMatchState).optionsVisible = false :=
  ⟨(enter_without_option_closes_uncommitted noMatchState (by decide)).1,
    (enter_without_option_closes_uncommitted noMatchState (by decide)).2.1⟩

/-- C10: a filter step whose search text is contained (case-insensitively)
in no option name sets `selectedIndex` to `-1` and, because indexing the
filtered list at `-1` yields no element, the derived `selectedId` becomes
undefined (`none`); every other filter step sets `selectedIndex` to the
index of the first option whose lowercased name contains the lowercased
search text. -/
theorem filter_without_match_invalidates_selection {T : Type}
    (s : SearchSelectState T) :
    ((∀ o ∈ s.options, optionMatches s.search o = false) →
      (filterStep s).selectedIndex = -1 ∧ (filterStep s).selectedId = none) ∧
    (∀ (i : Nat) (o : SelectOption T), s.options.get? i = some o →
      optionMatches s.search o = true →
      (∀ j, j < i → ∀ o2, s.options.get? j = some o2 →
        optionMatches s.search o2 = false) →
      (filterStep s).selectedIndex = (i : Int)) := by
  constructor
  · intro h
    have hidx : jsFindIndex s.options (fun o => optionMatches s.search o) = -1 :=
      jsFindIndex_eq_neg_one _ _ h
    refine ⟨?_, ?_⟩
    · simp [filterStep, writeSelectedIndex, updateSelectedId, hidx]
    · simp [filterStep, writeSelectedIndex, updateSelectedId, hidx, jsIndex]
  · intro i o hget hp hfirst
    have hidx := jsFindIndex_eq_first s.options
      (fun o => optionMatches s.search o) i o hget hp hfirst
    simp [filterStep, writeSelectedIndex, updateSelectedId, hidx]

/-- C10 witness: the no-match law applied to the concrete state whose
search text `"zz"` occurs in no option name. -/
theorem filter_without_match_invalidates_selection_witness :
    (filterStep appleState).selectedIndex = -1 ∧
    (filterStep appleState).selectedId = none :=
  (filter_without_match_invalidates_selection appleState).1 (by decide)

end JessComponents
